import Mathlib

/-!
Shallow embedding of `src/margin_strategy_template/strategy_template.py`.

The plugin class `Strategy(StrategyBase)` owns three fields
(`waiting_order_id`, `waiting_cancel_order_id`, `strategy_state`) and a
method per host callback.  Methods are modelled as pure functions from the
plugin state to a pair of the new state and the list of observable effects
(prints, calls to the host `exit`, order placement / cancellation requests).
`start` may abort on a failed `assert`, modelled by returning `none`.
Opaque SDK values (order books, tickers, trades, funds entries, orders) are
modelled as empty structures: the template never inspects them.  Python
numbers handled by the host's TradingCapabilityManager are modelled as
rationals; the template itself performs no arithmetic on them.
-/

namespace StrategyTemplate

/-- Flags of `StrategyConfig.required_data_updates`, as used by the template. -/
inductive DataUpdate
  | ORDER_BOOK
  | TICKER
  | PUBLIC_TRADE_HISTORY
  | FUNDS
deriving DecidableEq

/-- `StrategyConfig`: a set of flags selecting the update streams to deliver. -/
structure StrategyConfig where
  required_data_updates : Finset DataUpdate
deriving DecidableEq

/-- Exit reasons used by the template when calling the host `exit`. -/
inductive ExitReason
  | ERROR
  | FINISHED_SUCCESSFULLY
deriving DecidableEq

/-- Rounding mode passed to `tcm.round_amount` in `start`. -/
inductive RoundingType
  | ROUND
deriving DecidableEq

/-- The status variants of `OrderUpdate` matched in `on_order_update`. -/
inductive OrderUpdateStatus
  | FILLED
  | ADAPTED
  | CANCELED
  | NO_CHANGE
  | REAPPEARED
  | DISAPPEARED
  | PARTIALLY_FILLED
  | ADAPTED_AND_FILLED
  | OTHER_CHANGE
deriving DecidableEq

/-- Rendering of a status for the `print` in `on_order_update`. -/
def OrderUpdateStatus.toStr : OrderUpdateStatus → String
  | .FILLED => "FILLED"
  | .ADAPTED => "ADAPTED"
  | .CANCELED => "CANCELED"
  | .NO_CHANGE => "NO_CHANGE"
  | .REAPPEARED => "REAPPEARED"
  | .DISAPPEARED => "DISAPPEARED"
  | .PARTIALLY_FILLED => "PARTIALLY_FILLED"
  | .ADAPTED_AND_FILLED => "ADAPTED_AND_FILLED"
  | .OTHER_CHANGE => "OTHER_CHANGE"

/-- Opaque market-data snapshot delivered to `on_new_order_book`. -/
structure OrderBook

/-- Opaque ticker snapshot delivered to `on_new_ticker`. -/
structure Ticker

/-- Opaque public trade record delivered to `on_new_public_trades`. -/
structure PublicTrade

/-- Opaque per-currency balance record delivered to `on_new_funds`. -/
structure FundsEntry

/-- Opaque host-owned order record. -/
structure Order

/-- An order update: the template only reads its `status` field. -/
structure OrderUpdate where
  status : OrderUpdateStatus
deriving DecidableEq

/-- Observable effects a callback can produce: `print` output, a call to the
host-provided `exit(reason, message?)`, or an order placement / cancellation
request to the host. -/
inductive Effect
  | print (msg : String)
  | exitCall (reason : ExitReason) (message : Option String)
  | place_limit_order (buy : Bool) (amount price : Rat)
  | cancel_order (order_id : Int)
deriving DecidableEq

/-- Whether an effect is a plain `print` (neither `exit` nor an order
placement / cancellation request). -/
def Effect.is_print : Effect → Bool
  | .print _ => true
  | _ => false

/-- The host-provided TradingCapabilityManager, as used by `start`:
four query functions the template calls but does not implement. -/
structure TradingCapabilityManager where
  round_amount : Rat → RoundingType → Rat
  get_min_buy_amount : Rat → Rat
  get_max_buy_amount : Rat → Rat
  is_order_valid : Bool → Rat → Rat → Bool

/-- The mutable fields of a `Strategy` instance. -/
structure Strategy where
  waiting_order_id : Int
  waiting_cancel_order_id : Option Int
  strategy_state : List (String × String)
deriving DecidableEq

/-- `Strategy.__init__`: waiting_order_id = 0, waiting_cancel_order_id = None,
strategy_state = dict(). -/
def Strategy.initial : Strategy :=
  { waiting_order_id := 0
    waiting_cancel_order_id := none
    strategy_state := [] }

/-- `init`: prints a message, changes nothing. -/
def Strategy.init (self : Strategy) : Strategy × List Effect :=
  (self, [Effect.print "Strategy init function!"])

/-- `get_strategy_config`: builds a fresh StrategyConfig with the four flags. -/
def Strategy.get_strategy_config (_self : Strategy) : StrategyConfig :=
  { required_data_updates :=
      {DataUpdate.ORDER_BOOK, DataUpdate.TICKER,
       DataUpdate.PUBLIC_TRADE_HISTORY, DataUpdate.FUNDS} }

/-- `save_strategy_state`: returns `self.strategy_state`. -/
def Strategy.save_strategy_state (self : Strategy) : List (String × String) :=
  self.strategy_state

/-- `restore_strategy_state`: assigns the argument to `self.strategy_state`. -/
def Strategy.restore_strategy_state (self : Strategy)
    (strategy_state : List (String × String)) : Strategy :=
  { self with strategy_state := strategy_state }

/-- `start`: prints two messages, rounds the example amount through the
capability manager, then runs three `assert` statements (min-buy, max-buy,
`is_order_valid`).  A failed assert aborts the interpreter, modelled as
`none`; otherwise the state is unchanged (the `place_limit_order` line is
commented out in the source). -/
def Strategy.start (self : Strategy) (tcm : TradingCapabilityManager) :
    Option (Strategy × List Effect) :=
  let buy := true
  let amount : Rat := 2 / 1000
  let price : Rat := 1 / 10000
  let amount := tcm.round_amount amount RoundingType.ROUND
  if tcm.get_min_buy_amount price ≤ amount then
    if amount ≤ tcm.get_max_buy_amount price then
      if tcm.is_order_valid buy amount price then
        some (self, [Effect.print "Strategy start function!",
                     Effect.print "placing order"])
      else none
    else none
  else none

/-- `stop`: prints a message, changes nothing. -/
def Strategy.stop (self : Strategy) : Strategy × List Effect :=
  (self, [Effect.print "Strategy stop function!"])

/-- `suspend`: prints a message, changes nothing. -/
def Strategy.suspend (self : Strategy) : Strategy × List Effect :=
  (self, [Effect.print "Strategy suspend called"])

/-- `unsuspend`: prints a message, changes nothing. -/
def Strategy.unsuspend (self : Strategy) : Strategy × List Effect :=
  (self, [Effect.print "Strategy unsuspend called"])

/-- `on_new_order_book`: `pass`. -/
def Strategy.on_new_order_book (self : Strategy) (_order_book : OrderBook) :
    Strategy × List Effect :=
  (self, [])

/-- `on_new_ticker`: `pass`. -/
def Strategy.on_new_ticker (self : Strategy) (_ticker : Ticker) :
    Strategy × List Effect :=
  (self, [])

/-- `on_new_public_trades`: `pass`. -/
def Strategy.on_new_public_trades (self : Strategy)
    (_trades : List PublicTrade) : Strategy × List Effect :=
  (self, [])

/-- `on_new_funds`: prints a message (the funds value is opaque), changes
nothing. -/
def Strategy.on_new_funds (self : Strategy)
    (_funds : List (String × FundsEntry)) : Strategy × List Effect :=
  (self, [Effect.print "Strategy funds function!"])

/-- `on_order_update`: prints the status, then an if/elif chain over every
status variant whose branches are all `pass`. -/
def Strategy.on_order_update (self : Strategy) (update : OrderUpdate) :
    Strategy × List Effect :=
  let eff := [Effect.print ("Order update status was: " ++ update.status.toStr)]
  if update.status = OrderUpdateStatus.FILLED then (self, eff)
  else if update.status = OrderUpdateStatus.ADAPTED then (self, eff)
  else if update.status = OrderUpdateStatus.CANCELED then (self, eff)
  else if update.status = OrderUpdateStatus.NO_CHANGE then (self, eff)
  else if update.status = OrderUpdateStatus.REAPPEARED then (self, eff)
  else if update.status = OrderUpdateStatus.DISAPPEARED then (self, eff)
  else if update.status = OrderUpdateStatus.PARTIALLY_FILLED then (self, eff)
  else if update.status = OrderUpdateStatus.ADAPTED_AND_FILLED then (self, eff)
  else if update.status = OrderUpdateStatus.OTHER_CHANGE then (self, eff)
  else (self, eff)

/-- `on_place_order_success`: prints, then compares `waiting_order_id` (an
int) with `place_order_id` and prints which branch was taken. -/
def Strategy.on_place_order_success (self : Strategy) (place_order_id : Int)
    (_order : Order) : Strategy × List Effect :=
  if self.waiting_order_id = place_order_id then
    (self, [Effect.print "Strategy place order success",
            Effect.print "Had waiting order id"])
  else
    (self, [Effect.print "Strategy place order success",
            Effect.print "Did not have waiting order id"])

/-- `on_place_order_error_string`: calls `self.exit(ExitReason.ERROR, error)`. -/
def Strategy.on_place_order_error_string (self : Strategy)
    (_place_order_id : Int) (error : String) : Strategy × List Effect :=
  (self, [Effect.exitCall ExitReason.ERROR (some error)])

/-- `on_cancel_order_success`: prints, then compares
`waiting_cancel_order_id` (an `Optional[int]`, possibly `None`) with the int
`order_id`; in Python `None == order_id` is `False`, modelled by the `none`
branch.  On a match it prints and calls
`self.exit(ExitReason.FINISHED_SUCCESSFULLY)`. -/
def Strategy.on_cancel_order_success (self : Strategy) (order_id : Int)
    (_canceled_order : Order) : Strategy × List Effect :=
  if (match self.waiting_cancel_order_id with
      | some i => i == order_id
      | none => false) then
    (self, [Effect.print "Strategy cancel order success",
            Effect.print "Had waiting cancel id",
            Effect.exitCall ExitReason.FINISHED_SUCCESSFULLY none])
  else
    (self, [Effect.print "Strategy cancel order success"])

/-- `on_cancel_order_error_string`: calls `self.exit(ExitReason.ERROR, error)`. -/
def Strategy.on_cancel_order_error_string (self : Strategy)
    (_order_id : Int) (error : String) : Strategy × List Effect :=
  (self, [Effect.exitCall ExitReason.ERROR (some error)])

/-- One host call into the plugin, with its arguments. -/
inductive Op
  | init
  | get_strategy_config
  | save_strategy_state
  | restore_strategy_state (m : List (String × String))
  | start (tcm : TradingCapabilityManager)
  | stop
  | suspend
  | unsuspend
  | on_new_order_book (b : OrderBook)
  | on_new_ticker (t : Ticker)
  | on_new_public_trades (ts : List PublicTrade)
  | on_new_funds (f : List (String × FundsEntry))
  | on_order_update (u : OrderUpdate)
  | on_place_order_success (id : Int) (o : Order)
  | on_place_order_error_string (id : Int) (e : String)
  | on_cancel_order_success (id : Int) (o : Order)
  | on_cancel_order_error_string (id : Int) (e : String)

/-- The state after the host performs one call on the plugin.  A `start`
whose assert fails aborts the interpreter, so no new state arises from it;
that case keeps the old state. -/
def Op.apply (op : Op) (s : Strategy) : Strategy :=
  match op with
  | .init => (s.init).1
  | .get_strategy_config => s
  | .save_strategy_state => s
  | .restore_strategy_state m => s.restore_strategy_state m
  | .start tcm =>
      match s.start tcm with
      | some (s2, _) => s2
      | none => s
  | .stop => (s.stop).1
  | .suspend => (s.suspend).1
  | .unsuspend => (s.unsuspend).1
  | .on_new_order_book b => (s.on_new_order_book b).1
  | .on_new_ticker t => (s.on_new_ticker t).1
  | .on_new_public_trades ts => (s.on_new_public_trades ts).1
  | .on_new_funds f => (s.on_new_funds f).1
  | .on_order_update u => (s.on_order_update u).1
  | .on_place_order_success id o => (s.on_place_order_success id o).1
  | .on_place_order_error_string id e => (s.on_place_order_error_string id e).1
  | .on_cancel_order_success id o => (s.on_cancel_order_success id o).1
  | .on_cancel_order_error_string id e => (s.on_cancel_order_error_string id e).1

/-- States reachable from construction by any sequence of host calls. -/
inductive Reachable : Strategy → Prop
  | initial : Reachable Strategy.initial
  | step (op : Op) {s : Strategy} : Reachable s → Reachable (op.apply s)

/-- Helper: `on_order_update` returns the unchanged state and the single
status print, whatever the status (every branch of the if/elif chain is
`pass`). -/
theorem on_order_update_result (s : Strategy) (u : OrderUpdate) :
    s.on_order_update u =
      (s, [Effect.print ("Order update status was: " ++ u.status.toStr)]) := by
  unfold Strategy.on_order_update
  split_ifs <;> rfl

/-- Helper: when `start` returns normally, the returned state is the
unchanged input state. -/
theorem start_state_unchanged (s : Strategy) (tcm : TradingCapabilityManager)
    (r : Strategy × List Effect) (h : s.start tcm = some r) : r.1 = s := by
  simp only [Strategy.start] at h
  split_ifs at h
  cases h
  rfl

/-- Helper: no host call changes `waiting_cancel_order_id`. -/
theorem apply_preserves_waiting_cancel (op : Op) (s : Strategy) :
    (op.apply s).waiting_cancel_order_id = s.waiting_cancel_order_id := by
  cases op <;>
    simp only [Op.apply, Strategy.init, Strategy.stop, Strategy.suspend,
      Strategy.unsuspend, Strategy.restore_strategy_state,
      Strategy.on_new_order_book, Strategy.on_new_ticker,
      Strategy.on_new_public_trades, Strategy.on_new_funds]
  case start tcm =>
    cases hs : s.start tcm with
    | none => rfl
    | some r =>
        obtain ⟨s2, effs⟩ := r
        have h1 : s2 = s := start_state_unchanged s tcm (s2, effs) hs
        dsimp only
        rw [h1]
  case on_order_update u => rw [on_order_update_result]
  case on_place_order_success id o =>
    unfold Strategy.on_place_order_success
    split_ifs <;> rfl
  case on_place_order_error_string id e => rfl
  case on_cancel_order_success id o =>
    unfold Strategy.on_cancel_order_success
    split_ifs <;> rfl
  case on_cancel_order_error_string id e => rfl

/-- Claim C1: for every plugin instance and every string-to-string mapping m,
calling save_strategy_state (a pure read that does not change the state),
then restore_strategy_state m, then save_strategy_state again returns
exactly m, with no transformation of keys or values. -/
theorem save_restore_save_roundtrip (s : Strategy)
    (m : List (String × String)) :
    ((s.restore_strategy_state m).save_strategy_state) = m := rfl

/-- Claim C2: get_strategy_config returns a StrategyConfig whose
required_data_updates flag set is exactly
{ORDER_BOOK, TICKER, PUBLIC_TRADE_HISTORY, FUNDS}, on every plugin state. -/
theorem get_strategy_config_flags (s : Strategy) :
    (s.get_strategy_config).required_data_updates =
      {DataUpdate.ORDER_BOOK, DataUpdate.TICKER,
       DataUpdate.PUBLIC_TRADE_HISTORY, DataUpdate.FUNDS} := rfl

/-- A capability manager on which the two amount-bound conditions named by
claim C3 hold (min ≤ rounded amount ≤ max) but `is_order_valid` returns
false. -/
def tcmRejectsOrder : TradingCapabilityManager :=
  { round_amount := fun amount _ => amount
    get_min_buy_amount := fun _ => 0
    get_max_buy_amount := fun _ => 1
    is_order_valid := fun _ _ _ => false }

/-- Claim C3 counterexample: on `tcmRejectsOrder` both asserted amount
comparisons named by the claim are satisfied, yet `start` still aborts with
an assertion failure — because the source contains a third assert,
`is_order_valid`, which the claim omits. -/
theorem start_two_assert_claim_false :
    (tcmRejectsOrder.get_min_buy_amount (1 / 10000) ≤
        tcmRejectsOrder.round_amount (2 / 1000) RoundingType.ROUND ∧
      tcmRejectsOrder.round_amount (2 / 1000) RoundingType.ROUND ≤
        tcmRejectsOrder.get_max_buy_amount (1 / 10000)) ∧
    Strategy.initial.start tcmRejectsOrder = none := by
  refine ⟨⟨?_, ?_⟩, ?_⟩
  · norm_num [tcmRejectsOrder]
  · norm_num [tcmRejectsOrder]
  · simp only [Strategy.start, tcmRejectsOrder]
    norm_num

/-- Claim C3 amended: the order-placement example in start rounds the amount
and runs exactly three assertions (min-buy, max-buy and is_order_valid);
start aborts with a fatal assertion failure exactly when one of those three
conditions is violated, and otherwise returns normally with the state
unchanged. -/
theorem start_aborts_iff_three_asserts (tcm : TradingCapabilityManager)
    (s : Strategy) :
    (s.start tcm = none ↔
      ¬(tcm.get_min_buy_amount (1 / 10000) ≤
          tcm.round_amount (2 / 1000) RoundingType.ROUND ∧
        tcm.round_amount (2 / 1000) RoundingType.ROUND ≤
          tcm.get_max_buy_amount (1 / 10000) ∧
        tcm.is_order_valid true
          (tcm.round_amount (2 / 1000) RoundingType.ROUND) (1 / 10000) = true)) ∧
    (s.start tcm = none ∨
      s.start tcm = some (s, [Effect.print "Strategy start function!",
                              Effect.print "placing order"])) := by
  simp only [Strategy.start]
  split_ifs <;> simp_all

/-- Claim C4: both asynchronous error callbacks call the host exit with
reason ERROR and the given message, and produce no other effect. -/
theorem error_callbacks_exit_error (s : Strategy) (id : Int) (e : String) :
    s.on_place_order_error_string id e =
      (s, [Effect.exitCall ExitReason.ERROR (some e)]) ∧
    s.on_cancel_order_error_string id e =
      (s, [Effect.exitCall ExitReason.ERROR (some e)]) :=
  ⟨rfl, rfl⟩

/-- Claim C5: get_strategy_config returns equal configurations in any two
plugin states, so its result does not depend on the mutable state or on how
often it was called. -/
theorem get_strategy_config_state_independent (s1 s2 : Strategy) :
    s1.get_strategy_config = s2.get_strategy_config := rfl

/-- Claim C6: restore_strategy_state replaces the strategy_state field
wholesale with its argument and leaves waiting_order_id and
waiting_cancel_order_id unchanged. -/
theorem restore_replaces_state_frames_rest (s : Strategy)
    (m : List (String × String)) :
    (s.restore_strategy_state m).strategy_state = m ∧
    (s.restore_strategy_state m).waiting_order_id = s.waiting_order_id ∧
    (s.restore_strategy_state m).waiting_cancel_order_id =
      s.waiting_cancel_order_id :=
  ⟨rfl, rfl, rfl⟩

/-- Claim C7: on a freshly constructed plugin instance, save_strategy_state
returns the empty mapping. -/
theorem fresh_save_empty : Strategy.initial.save_strategy_state = [] := rfl

/-- Claim C8: every data/event callback (on_new_order_book, on_new_ticker,
on_new_public_trades, on_new_funds, and on_order_update for every status
variant) leaves the plugin state unchanged and emits only prints — never an
exit, order placement or order cancellation. -/
theorem data_callbacks_pure (s : Strategy) (b : OrderBook) (t : Ticker)
    (ts : List PublicTrade) (f : List (String × FundsEntry))
    (u : OrderUpdate) :
    ((s.on_new_order_book b).1 = s ∧
      (s.on_new_order_book b).2.all Effect.is_print = true) ∧
    ((s.on_new_ticker t).1 = s ∧
      (s.on_new_ticker t).2.all Effect.is_print = true) ∧
    ((s.on_new_public_trades ts).1 = s ∧
      (s.on_new_public_trades ts).2.all Effect.is_print = true) ∧
    ((s.on_new_funds f).1 = s ∧
      (s.on_new_funds f).2.all Effect.is_print = true) ∧
    ((s.on_order_update u).1 = s ∧
      (s.on_order_update u).2.all Effect.is_print = true) := by
  refine ⟨⟨rfl, rfl⟩, ⟨rfl, rfl⟩, ⟨rfl, rfl⟩, ⟨rfl, rfl⟩, ?_⟩
  rw [on_order_update_result]
  exact ⟨rfl, rfl⟩

/-- Claim C9: in every state reachable from construction by any sequence of
host calls, waiting_cancel_order_id is still None; consequently
on_cancel_order_success never takes the matched branch, so it never calls
exit(FINISHED_SUCCESSFULLY) in the unmodified template. -/
theorem reachable_waiting_cancel_none (s : Strategy) (h : Reachable s)
    (id : Int) (o : Order) :
    s.waiting_cancel_order_id = none ∧
    s.on_cancel_order_success id o =
      (s, [Effect.print "Strategy cancel order success"]) := by
  have hnone : s.waiting_cancel_order_id = none := by
    induction h with
    | initial => rfl
    | step op h ih => rw [apply_preserves_waiting_cancel]; exact ih
  refine ⟨hnone, ?_⟩
  simp [Strategy.on_cancel_order_success, hnone]

/-- Witness for claim C9: the freshly constructed instance is reachable, its
waiting_cancel_order_id is None, and on_cancel_order_success 7 only prints. -/
theorem reachable_waiting_cancel_none_witness :
    Strategy.initial.waiting_cancel_order_id = none ∧
    Strategy.initial.on_cancel_order_success 7 Order.mk =
      (Strategy.initial, [Effect.print "Strategy cancel order success"]) :=
  reachable_waiting_cancel_none Strategy.initial Reachable.initial 7 Order.mk

/-- Claim C10: waiting_order_id is initialized to the integer 0, so on a
fresh instance on_place_order_success 0 takes the matched branch, treating
an order the plugin never placed as the one it was awaiting. -/
theorem fresh_place_order_success_zero_matches :
    Strategy.initial.on_place_order_success 0 Order.mk =
      (Strategy.initial,
        [Effect.print "Strategy place order success",
         Effect.print "Had waiting order id"]) := rfl

end StrategyTemplate
